import Mathlib

/-!
# Verification of jgdtrans-js core against its specification

Shallow embedding of the jgdtrans-js repository (mesh coordinate system,
par-file parser, and coordinate transformer) in Lean 4, together with
theorems settling the specification claims.

Numbers: the JavaScript source computes over IEEE-754 doubles.  This
embedding uses exact rational arithmetic (`ℚ`) for all numeric values and
`Int`/`Nat` for integer-valued quantities.  The bit-level IEEE-754
tie-break in `MeshCoord.fromLatitude` (`isOddBits`/`nextUp` on the raw
float encoding, src/src/mesh.ts lines 327-330) compensates for rounding
of `1.5 * degree`; under exact rational arithmetic that product is exact
and the bit-level step has no rational counterpart, so it is omitted here
and claims that depend on it are not settled against this embedding.

Exceptions: every JavaScript `throw` is modelled by `Except` with the
error kind recorded (messages are elided except the corner name carried
by `ParameterNotFoundError`).
-/

/-- The error taxonomy of src (error.js, src/unnamed/part_002): one
constructor per error class thrown by the embedded code. -/
inductive JgdError where
  | valueError
  | unitError
  | overflowError
  | cellError
  | parseError
  | pointError
  | parameterNotFound (corner : String)
  | correctionNotFound
deriving DecidableEq, Repr

/-- Decidable equality of results, used to evaluate the embedding at
concrete inputs. -/
instance {e a : Type} [DecidableEq e] [DecidableEq a] : DecidableEq (Except e a) :=
  fun x y =>
    match x, y with
    | .error u, .error v =>
      if h : u = v then isTrue (by rw [h]) else isFalse (by simp [h])
    | .ok u, .ok v =>
      if h : u = v then isTrue (by rw [h]) else isFalse (by simp [h])
    | .error _, .ok _ => isFalse (by simp)
    | .ok _, .error _ => isFalse (by simp)

/-- The mesh unit `1 | 5` (src/src/mesh.ts, `type MeshUnit`). -/
inductive MeshUnit where
  | one
  | five
deriving DecidableEq, Repr

/-- Numeric value of a mesh unit. -/
def MeshUnit.toNat : MeshUnit → Nat
  | .one => 1
  | .five => 5

/-- A mesh coordinate: three digits (src/src/mesh.ts, `class MeshCoord`).
Digit bounds are enforced by `meshCoordNewI` below, mirroring the
constructor's `isFirst`/`isSecond`/`isThird` validation. -/
structure MeshCoord where
  first : Nat
  second : Nat
  third : Nat
deriving DecidableEq, Repr

/-- Digit bounds of `MeshCoord` (src/src/mesh.ts, types `First`, `Second`,
`Third`: `0..99`, `0..7`, `0..9`). -/
def MeshCoord.validB (c : MeshCoord) : Bool :=
  decide (c.first ≤ 99) && decide (c.second ≤ 7) && decide (c.third ≤ 9)

/-- The validating `MeshCoord` constructor over `Int` digits
(src/src/mesh.ts lines 238-256: throws `ValueError` when a digit is out
of range). -/
def meshCoordNewI (f s t : Int) : Except JgdError MeshCoord :=
  if 0 ≤ f ∧ f ≤ 99 ∧ 0 ≤ s ∧ s ≤ 7 ∧ 0 ≤ t ∧ t ≤ 9 then
    .ok ⟨f.toNat, s.toNat, t.toNat⟩
  else
    .error .valueError

/-- The validating `MeshCoord` constructor over `Nat` digits. -/
def meshCoordNew (f s t : Nat) : Except JgdError MeshCoord :=
  meshCoordNewI f s t

/-- `MeshCoord.isMeshUnit` (src/src/mesh.ts lines 269-282): `1` is always
compatible, `5` iff the third digit is a multiple of `5`. -/
def MeshCoord.isMeshUnit (c : MeshCoord) : MeshUnit → Bool
  | .one => true
  | .five => decide (c.third % 5 = 0)

/-- `MeshCoord.lt` (src/src/mesh.ts lines 563-575): lexicographic
comparison of (first, second, third). -/
def MeshCoord.ltB (a b : MeshCoord) : Bool :=
  if a.first = b.first then
    if a.second = b.second then decide (a.third < b.third)
    else decide (a.second < b.second)
  else decide (a.first < b.first)

/-- `MeshCoord.nextUp` (src/src/mesh.ts lines 438-467): increment the
third digit by the mesh unit, carrying into second then first; fails
with a unit error when `this` is incompatible with the unit and with an
overflow error at the top of the coordinate space. -/
def MeshCoord.nextUp (c : MeshCoord) (u : MeshUnit) : Except JgdError MeshCoord :=
  if ¬ c.isMeshUnit u then .error .unitError
  else
    let bound : Nat := match u with | .one => 9 | .five => 5
    if c.third = bound then
      if c.second = 7 then
        if c.first = 99 then .error .overflowError
        else meshCoordNew (c.first + 1) 0 0
      else meshCoordNew c.first (c.second + 1) 0
    else meshCoordNew c.first c.second (c.third + u.toNat)

/-- `MeshCoord.#toDegree` (src/src/mesh.ts lines 370-372). -/
def MeshCoord.toDegree (c : MeshCoord) : ℚ :=
  (c.first : ℚ) + (c.second : ℚ) / 8 + (c.third : ℚ) / 80

/-- `MeshCoord.toLatitude` (src/src/mesh.ts lines 391-393). -/
def MeshCoord.toLatitude (c : MeshCoord) : ℚ :=
  2 * c.toDegree / 3

/-- `MeshCoord.toLongitude` (src/src/mesh.ts lines 412-414). -/
def MeshCoord.toLongitude (c : MeshCoord) : ℚ :=
  100 + c.toDegree

/-- `MeshCoord.#fromDegree` (src/src/mesh.ts lines 284-300): digit
decomposition of a degree value, snapping the third digit to `0`/`5`
for mesh unit five. -/
def MeshCoord.fromDegree (degree : ℚ) (u : MeshUnit) : Except JgdError MeshCoord :=
  let integer : Int := ⌊degree⌋
  let first : Int := integer % 100
  let second : Int := ⌊8 * degree⌋ - 8 * integer
  let third : Int := ⌊80 * degree⌋ - 80 * integer - 10 * second
  match u with
  | .one => meshCoordNewI first second third
  | .five => meshCoordNewI first second (if third < 5 then 0 else 5)

/-- `MeshCoord.fromLatitude` (src/src/mesh.ts lines 318-337): scale by
`3/2`, reject values outside `[0, 100)`, then decompose.  The IEEE-754
`isOddBits`/`nextUp` tie-break of the source is a floating-point
compensation step with no exact-rational counterpart and is omitted (see
module comment). -/
def MeshCoord.fromLatitude (degree : ℚ) (u : MeshUnit) : Except JgdError MeshCoord :=
  let value := 3 * degree / 2
  if value < 0 ∨ 100 ≤ value then .error .valueError
  else MeshCoord.fromDegree value u

/-- `MeshCoord.fromLongitude` (src/src/mesh.ts lines 356-368): degree must
be in `[100, 180]`, then decompose directly. -/
def MeshCoord.fromLongitude (degree : ℚ) (u : MeshUnit) : Except JgdError MeshCoord :=
  if degree < 100 ∨ 180 < degree then .error .valueError
  else MeshCoord.fromDegree degree u

/-- A geographic point (src/src/point.ts, `class Point`); the constructor
imposes no range invariant. -/
structure Point where
  latitude : ℚ
  longitude : ℚ
  altitude : ℚ
deriving DecidableEq, Repr

/-- Truncation toward zero, as JavaScript division underlying `%` does. -/
def truncInt (q : ℚ) : Int :=
  if 0 ≤ q then ⌊q⌋ else ⌈q⌉

/-- The JavaScript remainder operator `a % b`: remainder of truncated
division, sign following the dividend. -/
def jsRem (a b : ℚ) : ℚ :=
  a - b * truncInt (a / b)

/-- `normalizeLatitude` (src/src/point.ts lines 16-33).  The NaN short
circuit of the source has no rational counterpart. -/
def normalizeLatitude (degree : ℚ) : ℚ :=
  if -90 ≤ degree ∧ degree ≤ 90 then degree
  else
    let s := jsRem degree 360
    if s < -270 then s + 360
    else if 270 < s then s - 360
    else if s < -90 then -180 - s
    else if 90 < s then 180 - s
    else s

/-- `normalizeLongitude` (src/src/point.ts lines 36-49). -/
def normalizeLongitude (degree : ℚ) : ℚ :=
  if -180 ≤ degree ∧ degree ≤ 180 then degree
  else
    let s := jsRem degree 360
    if s < -180 then s + 360
    else if 180 < s then s - 360
    else s

/-- `Point.normalize` (src/src/point.ts lines 289-295). -/
def Point.normalize (p : Point) : Point :=
  ⟨normalizeLatitude p.latitude, normalizeLongitude p.longitude, p.altitude⟩

/-- Fractional-part bound: `jsRem d 360` lies strictly between `-360`
and `360`. -/
theorem jsRem_360_bounds (d : ℚ) : -360 < jsRem d 360 ∧ jsRem d 360 < 360 := by
  unfold jsRem truncInt
  by_cases h : 0 ≤ d / 360
  · simp only [h, if_pos]
    have h1 : (⌊d / 360⌋ : ℚ) ≤ d / 360 := Int.floor_le _
    have h2 : d / 360 < ⌊d / 360⌋ + 1 := Int.lt_floor_add_one _
    constructor <;> nlinarith
  · simp only [h, if_neg, not_false_iff]
    have h1 : (d / 360 : ℚ) ≤ ⌈d / 360⌉ := Int.le_ceil _
    have h2 : (⌈d / 360⌉ : ℚ) - 1 < d / 360 := by
      have := Int.ceil_lt_add_one (d / 360)
      linarith
    constructor <;> nlinarith

/-- `normalizeLatitude` always lands in `[-90, 90]`. -/
theorem normalizeLatitude_mem (d : ℚ) :
    -90 ≤ normalizeLatitude d ∧ normalizeLatitude d ≤ 90 := by
  unfold normalizeLatitude
  by_cases h0 : -90 ≤ d ∧ d ≤ 90
  · rw [if_pos h0]
    exact h0
  · rw [if_neg h0]
    obtain ⟨hl, hr⟩ := jsRem_360_bounds d
    set s := jsRem d 360 with hs
    by_cases h1 : s < -270
    · rw [if_pos h1]; constructor <;> linarith
    · rw [if_neg h1]
      by_cases h2 : 270 < s
      · rw [if_pos h2]; constructor <;> linarith
      · rw [if_neg h2]
        by_cases h3 : s < -90
        · rw [if_pos h3]; constructor <;> linarith
        · rw [if_neg h3]
          by_cases h4 : 90 < s
          · rw [if_pos h4]; constructor <;> linarith
          · rw [if_neg h4]
            constructor <;> linarith

/-- `normalizeLongitude` always lands in `[-180, 180]`. -/
theorem normalizeLongitude_mem (d : ℚ) :
    -180 ≤ normalizeLongitude d ∧ normalizeLongitude d ≤ 180 := by
  unfold normalizeLongitude
  by_cases h0 : -180 ≤ d ∧ d ≤ 180
  · rw [if_pos h0]
    exact h0
  · rw [if_neg h0]
    obtain ⟨hl, hr⟩ := jsRem_360_bounds d
    set s := jsRem d 360 with hs
    by_cases h1 : s < -180
    · rw [if_pos h1]; constructor <;> linarith
    · rw [if_neg h1]
      by_cases h2 : 180 < s
      · rw [if_pos h2]; constructor <;> linarith
      · rw [if_neg h2]
        constructor <;> linarith

/-- On in-range input `normalizeLatitude` is the identity. -/
theorem normalizeLatitude_of_mem (d : ℚ) (h : -90 ≤ d ∧ d ≤ 90) :
    normalizeLatitude d = d := by
  unfold normalizeLatitude
  rw [if_pos h]

/-- On in-range input `normalizeLongitude` is the identity. -/
theorem normalizeLongitude_of_mem (d : ℚ) (h : -180 ≤ d ∧ d ≤ 180) :
    normalizeLongitude d = d := by
  unfold normalizeLongitude
  rw [if_pos h]

/-- C8: `Point.normalize` is idempotent, and the latitude normalization
maps `180`, `-180`, `360` to `0` and `270` to `-90`
(src/src/point.ts lines 16-49 and 289-295). -/
theorem point_normalize_idempotent_and_values :
    (∀ p : Point, p.normalize.normalize = p.normalize) ∧
    normalizeLatitude 180 = 0 ∧
    normalizeLatitude (-180) = 0 ∧
    normalizeLatitude 360 = 0 ∧
    normalizeLatitude 270 = -90 := by
  refine ⟨?_, ?_, ?_, ?_, ?_⟩
  · intro p
    show Point.mk _ _ _ = Point.mk _ _ _
    congr 1
    · exact normalizeLatitude_of_mem _ (normalizeLatitude_mem p.latitude)
    · exact normalizeLongitude_of_mem _ (normalizeLongitude_mem p.longitude)
  all_goals norm_num [normalizeLatitude, jsRem, truncInt, Int.ceil_neg]

/-- A mesh node: a pair of mesh coordinates (src/src/mesh.ts,
`class MeshNode`). -/
structure MeshNode where
  latitude : MeshCoord
  longitude : MeshCoord
deriving DecidableEq, Repr

/-- `MeshNode.LONGITUDE_MAX` (src/src/mesh.ts lines 751-753). -/
def longitudeMax : MeshCoord := ⟨80, 0, 0⟩

/-- The validating `MeshNode` constructor (src/src/mesh.ts lines 791-802):
fails with a value error when `LONGITUDE_MAX < longitude`. -/
def meshNodeNew (latitude longitude : MeshCoord) : Except JgdError MeshNode :=
  if longitudeMax.ltB longitude then .error .valueError
  else .ok ⟨latitude, longitude⟩

/-- `MeshNode.isMeshUnit` (src/src/mesh.ts lines 766-771). -/
def MeshNode.isMeshUnit (n : MeshNode) (u : MeshUnit) : Bool :=
  n.latitude.isMeshUnit u && n.longitude.isMeshUnit u

/-- `MeshNode.toMeshcode` (src/src/mesh.ts lines 886-892): digit
interleaving. -/
def MeshNode.toMeshcode (n : MeshNode) : Nat :=
  (n.latitude.first * 100 + n.longitude.first) * 10000 +
    (n.latitude.second * 10 + n.longitude.second) * 100 +
    (n.latitude.third * 10 + n.longitude.third)

/-- `MeshNode.fromMeshcode` (src/src/mesh.ts lines 816-842): reject
negative or `≥ 10^8` codes, then decompose by division/modulo and build
the two coordinates and the node through their validating constructors. -/
def MeshNode.fromMeshcode (meshcode : Int) : Except JgdError MeshNode :=
  if meshcode < 0 ∨ (100000000 : Int) ≤ meshcode then .error .valueError
  else
    let n : Nat := meshcode.toNat
    let latFirst := n / 1000000
    let rest1 := n % 1000000
    let lonFirst := rest1 / 10000
    let rest2 := rest1 % 10000
    let latSecond := rest2 / 1000
    let rest3 := rest2 % 1000
    let lonSecond := rest3 / 100
    let rest4 := rest3 % 100
    let latThird := rest4 / 10
    let lonThird := rest4 % 10
    match meshCoordNew latFirst latSecond latThird with
    | .error e => .error e
    | .ok latc =>
      match meshCoordNew lonFirst lonSecond lonThird with
      | .error e => .error e
      | .ok lonc => meshNodeNew latc lonc

/-- `MeshNode.fromPoint` (src/src/mesh.ts lines 863-872): quantize
latitude and longitude to the south-west grid coordinates. -/
def MeshNode.fromPoint (point : Point) (u : MeshUnit) : Except JgdError MeshNode :=
  match MeshCoord.fromLatitude point.latitude u with
  | .error e => .error e
  | .ok latitude =>
    match MeshCoord.fromLongitude point.longitude u with
    | .error e => .error e
    | .ok longitude => meshNodeNew latitude longitude

/-- A mesh cell: four corner nodes and a mesh unit (src/src/mesh.ts,
`class MeshCell`). -/
structure MeshCell where
  southWest : MeshNode
  southEast : MeshNode
  northWest : MeshNode
  northEast : MeshNode
  meshUnit : MeshUnit
deriving DecidableEq, Repr

/-- The validating `MeshCell` constructor (src/src/mesh.ts lines
1080-1133): unit-compatibility checks (unit error), then adjacency checks
against the south-west node's successors (cell error). -/
def meshCellNew (southWest southEast northWest northEast : MeshNode) (u : MeshUnit) :
    Except JgdError MeshCell :=
  if ¬ southWest.isMeshUnit u then .error .unitError
  else if ¬ southEast.isMeshUnit u then .error .unitError
  else if ¬ northWest.isMeshUnit u then .error .unitError
  else if ¬ northEast.isMeshUnit u then .error .unitError
  else
    match southWest.latitude.nextUp u with
    | .error e => .error e
    | .ok nextLatitude =>
      match southWest.longitude.nextUp u with
      | .error e => .error e
      | .ok nextLongitude =>
        if northWest.latitude ≠ nextLatitude ∨ northWest.longitude ≠ southWest.longitude then
          .error .cellError
        else if southEast.latitude ≠ southWest.latitude ∨ southEast.longitude ≠ nextLongitude then
          .error .cellError
        else if northEast.latitude ≠ nextLatitude ∨ northEast.longitude ≠ nextLongitude then
          .error .cellError
        else .ok ⟨southWest, southEast, northWest, northEast, u⟩

/-- `MeshCell.fromMeshNode` (src/src/mesh.ts lines 1180-1193): corners are
the node and its successors along each axis. -/
def MeshCell.fromMeshNode (node : MeshNode) (u : MeshUnit) : Except JgdError MeshCell :=
  match node.latitude.nextUp u with
  | .error e => .error e
  | .ok nextLatitude =>
    match node.longitude.nextUp u with
    | .error e => .error e
    | .ok nextLongitude =>
      match meshNodeNew node.latitude nextLongitude with
      | .error e => .error e
      | .ok se =>
        match meshNodeNew nextLatitude node.longitude with
        | .error e => .error e
        | .ok nw =>
          match meshNodeNew nextLatitude nextLongitude with
          | .error e => .error e
          | .ok nE => meshCellNew node se nw nE u

/-- `MeshCell.fromPoint` (src/src/mesh.ts lines 1231-1234). -/
def MeshCell.fromPoint (point : Point) (u : MeshUnit) : Except JgdError MeshCell :=
  match MeshNode.fromPoint point u with
  | .error e => .error e
  | .ok node => MeshCell.fromMeshNode node u

/-- `MeshCell.position` (src/src/mesh.ts lines 1237-1247): offsets from
the south-west corner, scaled per mesh unit.  Note the pair is
`(80·Δlongitude, 120·Δlatitude)` (resp. `(16·Δlongitude, 24·Δlatitude)`),
exactly as the source returns `[80.0 * longitude, 120.0 * latitude]`. -/
def MeshCell.position (cell : MeshCell) (point : Point) : ℚ × ℚ :=
  let latitude := point.latitude - cell.southWest.latitude.toLatitude
  let longitude := point.longitude - cell.southWest.longitude.toLongitude
  match cell.meshUnit with
  | .one => (80 * longitude, 120 * latitude)
  | .five => (16 * longitude, 24 * latitude)

/-- Validity of a `MeshNode`: digit bounds on both coordinates plus the
constructor's longitude upper bound. -/
def MeshNode.validB (n : MeshNode) : Bool :=
  n.latitude.validB && n.longitude.validB && ! longitudeMax.ltB n.longitude

/-- The latitude-second digit decoded from a meshcode, as
`MeshNode.fromMeshcode` computes it. -/
def decodeLatSecond (n : Nat) : Nat := n % 1000000 % 10000 / 1000

/-- The longitude-second digit decoded from a meshcode, as
`MeshNode.fromMeshcode` computes it. -/
def decodeLonSecond (n : Nat) : Nat := n % 1000000 % 10000 % 1000 / 100

/-- The longitude coordinate decoded from a meshcode, as
`MeshNode.fromMeshcode` computes it. -/
def decodeLongitude (n : Nat) : MeshCoord :=
  ⟨n % 1000000 / 10000, decodeLonSecond n, n % 1000000 % 10000 % 1000 % 100 % 10⟩


/-- `meshCoordNewI` never raises a cell error. -/
theorem meshCoordNewI_ne_cellError (f s t : Int) :
    meshCoordNewI f s t ≠ .error .cellError := by
  unfold meshCoordNewI
  split_ifs <;> simp

/-- `meshNodeNew` never raises a cell error. -/
theorem meshNodeNew_ne_cellError (la lo : MeshCoord) :
    meshNodeNew la lo ≠ .error .cellError := by
  unfold meshNodeNew
  split_ifs <;> simp

/-- `MeshCoord.nextUp` never raises a cell error. -/
theorem nextUp_ne_cellError (c : MeshCoord) (u : MeshUnit) :
    c.nextUp u ≠ .error .cellError := by
  cases u <;>
    · simp only [MeshCoord.nextUp, meshCoordNew]
      split_ifs <;> first
        | exact meshCoordNewI_ne_cellError _ _ _
        | simp

/-- A successful `nextUp` implies the receiver was unit-compatible. -/
theorem nextUp_ok_isMeshUnit (c c' : MeshCoord) (u : MeshUnit)
    (h : c.nextUp u = .ok c') : c.isMeshUnit u = true := by
  by_contra hu
  unfold MeshCoord.nextUp at h
  rw [if_pos (by simpa using hu)] at h
  exact Except.noConfusion h

/-- A successful `meshCoordNew` pins the third digit. -/
theorem meshCoordNew_ok_third (f s t : Nat) (c : MeshCoord)
    (h : meshCoordNew f s t = .ok c) : c.third = t ∧ t ≤ 9 := by
  unfold meshCoordNew meshCoordNewI at h
  split_ifs at h with hcond
  obtain ⟨-, -, -, -, -, h9⟩ := hcond
  cases h
  refine ⟨by simp, by exact_mod_cast h9⟩

/-- A successful `nextUp` yields a unit-compatible coordinate. -/
theorem nextUp_ok_preserves_isMeshUnit (c c' : MeshCoord) (u : MeshUnit)
    (h : c.nextUp u = .ok c') : c'.isMeshUnit u = true := by
  have hu := nextUp_ok_isMeshUnit c c' u h
  cases u with
  | one => simp [MeshCoord.isMeshUnit]
  | five =>
    simp only [MeshCoord.isMeshUnit, decide_eq_true_eq] at hu ⊢
    simp only [MeshCoord.nextUp, MeshCoord.isMeshUnit, MeshUnit.toNat, hu,
      decide_eq_true_eq] at h
    rw [if_neg (by simp)] at h
    split_ifs at h with h3 h2 h1
    all_goals obtain ⟨ht, hle⟩ := meshCoordNew_ok_third _ _ _ _ h
    all_goals omega

/-- A successful `meshNodeNew` returns exactly the given pair. -/
theorem meshNodeNew_ok (la lo : MeshCoord) (m : MeshNode)
    (h : meshNodeNew la lo = .ok m) : m = ⟨la, lo⟩ := by
  unfold meshNodeNew at h
  split_ifs at h
  injection h with h'
  exact h'.symm

/-- The corners built by `MeshCell.fromMeshNode` always pass the
`MeshCell` constructor's unit and adjacency checks. -/
theorem meshCellNew_of_nextUp (node : MeshNode) (nextLat nextLon : MeshCoord)
    (u : MeshUnit)
    (hlat : node.latitude.nextUp u = .ok nextLat)
    (hlon : node.longitude.nextUp u = .ok nextLon) :
    meshCellNew node ⟨node.latitude, nextLon⟩ ⟨nextLat, node.longitude⟩
      ⟨nextLat, nextLon⟩ u =
      .ok ⟨node, ⟨node.latitude, nextLon⟩, ⟨nextLat, node.longitude⟩,
        ⟨nextLat, nextLon⟩, u⟩ := by
  have hu1 := nextUp_ok_isMeshUnit _ _ _ hlat
  have hu2 := nextUp_ok_isMeshUnit _ _ _ hlon
  have hu3 := nextUp_ok_preserves_isMeshUnit _ _ _ hlat
  have hu4 := nextUp_ok_preserves_isMeshUnit _ _ _ hlon
  unfold meshCellNew
  rw [if_neg (by simp [MeshNode.isMeshUnit, hu1, hu2])]
  rw [if_neg (by simp [MeshNode.isMeshUnit, hu1, hu4])]
  rw [if_neg (by simp [MeshNode.isMeshUnit, hu3, hu2])]
  rw [if_neg (by simp [MeshNode.isMeshUnit, hu3, hu4])]
  rw [hlat, hlon]
  simp

/-- C7: `MeshCell.fromMeshNode` never raises a cell error: for every node
and unit, whenever the two `nextUp` calls and the corner `MeshNode`
constructions succeed, the corners pass the `MeshCell` constructor's
adjacency and unit-compatibility checks, so the cell-error branch is
unreachable (src/src/mesh.ts lines 1080-1133 and 1180-1193).
`MeshCell.fromPoint` reaches cell construction only through
`fromMeshNode`, so the same holds on that path. -/
theorem fromMeshNode_ne_cellError (node : MeshNode) (u : MeshUnit) :
    MeshCell.fromMeshNode node u ≠ .error .cellError := by
  unfold MeshCell.fromMeshNode
  cases hlat : node.latitude.nextUp u with
  | error e =>
    dsimp only
    intro h
    simp only [Except.error.injEq] at h
    rw [h] at hlat
    exact nextUp_ne_cellError _ _ hlat
  | ok nextLat =>
    dsimp only
    cases hlon : node.longitude.nextUp u with
    | error e =>
      dsimp only
      intro h
      simp only [Except.error.injEq] at h
      rw [h] at hlon
      exact nextUp_ne_cellError _ _ hlon
    | ok nextLon =>
      dsimp only
      cases hse : meshNodeNew node.latitude nextLon with
      | error e =>
        dsimp only
        intro h
        simp only [Except.error.injEq] at h
        rw [h] at hse
        exact meshNodeNew_ne_cellError _ _ hse
      | ok se =>
        dsimp only
        cases hnw : meshNodeNew nextLat node.longitude with
        | error e =>
          dsimp only
          intro h
          simp only [Except.error.injEq] at h
          rw [h] at hnw
          exact meshNodeNew_ne_cellError _ _ hnw
        | ok nw =>
          dsimp only
          cases hne : meshNodeNew nextLat nextLon with
          | error e =>
            dsimp only
            intro h
            simp only [Except.error.injEq] at h
            rw [h] at hne
            exact meshNodeNew_ne_cellError _ _ hne
          | ok nE =>
            dsimp only
            rw [meshNodeNew_ok _ _ _ hse, meshNodeNew_ok _ _ _ hnw,
              meshNodeNew_ok _ _ _ hne]
            rw [meshCellNew_of_nextUp node nextLat nextLon u hlat hlon]
            simp

/-- `meshCoordNew` succeeds on in-bounds digits. -/
theorem meshCoordNew_ok_of_bounds (f s t : Nat) (hf : f ≤ 99) (hs : s ≤ 7)
    (ht : t ≤ 9) : meshCoordNew f s t = .ok ⟨f, s, t⟩ := by
  unfold meshCoordNew meshCoordNewI
  rw [if_pos ⟨Int.natCast_nonneg f, by exact_mod_cast hf, Int.natCast_nonneg s,
    by exact_mod_cast hs, Int.natCast_nonneg t, by exact_mod_cast ht⟩]
  simp

/-- C6: `MeshNode.fromMeshcode` inverts `MeshNode.toMeshcode` on every
valid node, and fails with a value error on every negative code, every
code `≥ 10^8`, and every in-range code whose decoded digits violate the
`MeshCoord` digit bounds or the longitude upper bound
(src/src/mesh.ts lines 816-842 and 886-892). -/
theorem fromMeshcode_toMeshcode_roundtrip :
    (∀ n : MeshNode, n.validB = true →
      MeshNode.fromMeshcode (n.toMeshcode : Int) = .ok n) ∧
    (∀ code : Int, code < 0 →
      MeshNode.fromMeshcode code = .error .valueError) ∧
    (∀ code : Int, (100000000 : Int) ≤ code →
      MeshNode.fromMeshcode code = .error .valueError) ∧
    (∀ code : Int, 0 ≤ code → code < 100000000 →
      (7 < decodeLatSecond code.toNat ∨ 7 < decodeLonSecond code.toNat ∨
        longitudeMax.ltB (decodeLongitude code.toNat) = true) →
      MeshNode.fromMeshcode code = .error .valueError) := by
  refine ⟨?_, ?_, ?_, ?_⟩
  · rintro ⟨⟨a, b, c⟩, ⟨d, e, f⟩⟩ hv
    simp only [MeshNode.validB, MeshCoord.validB, Bool.and_eq_true,
      Bool.not_eq_eq_eq_not, Bool.not_true, decide_eq_true_eq] at hv
    obtain ⟨⟨⟨⟨ha, hb⟩, hc⟩, ⟨⟨hd, he⟩, hf⟩⟩, hlon⟩ := hv
    have hcode : MeshNode.toMeshcode ⟨⟨a, b, c⟩, ⟨d, e, f⟩⟩ =
        a * 1000000 + d * 10000 + b * 1000 + e * 100 + c * 10 + f := by
      simp only [MeshNode.toMeshcode]
      ring
    unfold MeshNode.fromMeshcode
    rw [if_neg]
    · rw [hcode]
      rw [show ((↑(a * 1000000 + d * 10000 + b * 1000 + e * 100 + c * 10 + f) :
          Int)).toNat = a * 1000000 + d * 10000 + b * 1000 + e * 100 + c * 10 + f
        from Int.toNat_natCast _]
      dsimp only
      have e1 : (a * 1000000 + d * 10000 + b * 1000 + e * 100 + c * 10 + f)
          / 1000000 = a := by omega
      have e2 : (a * 1000000 + d * 10000 + b * 1000 + e * 100 + c * 10 + f)
          % 1000000 = d * 10000 + b * 1000 + e * 100 + c * 10 + f := by omega
      have e3 : (d * 10000 + b * 1000 + e * 100 + c * 10 + f) / 10000 = d := by
        omega
      have e4 : (d * 10000 + b * 1000 + e * 100 + c * 10 + f) % 10000 =
          b * 1000 + e * 100 + c * 10 + f := by omega
      have e5 : (b * 1000 + e * 100 + c * 10 + f) / 1000 = b := by omega
      have e6 : (b * 1000 + e * 100 + c * 10 + f) % 1000 =
          e * 100 + c * 10 + f := by omega
      have e7 : (e * 100 + c * 10 + f) / 100 = e := by omega
      have e8 : (e * 100 + c * 10 + f) % 100 = c * 10 + f := by omega
      have e9 : (c * 10 + f) / 10 = c := by omega
      have e10 : (c * 10 + f) % 10 = f := by omega
      rw [e1, e2, e3, e4, e5, e6, e7, e8, e9, e10]
      rw [meshCoordNew_ok_of_bounds a b c ha hb hc]
      rw [meshCoordNew_ok_of_bounds d e f hd he hf]
      dsimp only
      unfold meshNodeNew
      rw [if_neg (by simp [hlon])]
    · push_neg
      refine ⟨Int.natCast_nonneg _, ?_⟩
      have hle : a * 1000000 + d * 10000 + b * 1000 + e * 100 + c * 10 + f
          < 100000000 := by omega
      rw [hcode]
      exact_mod_cast hle
  · intro code hneg
    unfold MeshNode.fromMeshcode
    rw [if_pos (Or.inl hneg)]
  · intro code hbig
    unfold MeshNode.fromMeshcode
    rw [if_pos (Or.inr hbig)]
  · intro code h0 h8 hbad
    unfold MeshNode.fromMeshcode
    rw [if_neg (by push_neg; exact ⟨h0, h8⟩)]
    dsimp only
    cases hlatc : meshCoordNew (code.toNat / 1000000)
        (code.toNat % 1000000 % 10000 / 1000)
        (code.toNat % 1000000 % 10000 % 1000 % 100 / 10) with
    | error e =>
      dsimp only
      unfold meshCoordNew meshCoordNewI at hlatc
      split_ifs at hlatc
      injection hlatc with h'
      rw [← h']
    | ok latc =>
      dsimp only
      cases hlonc : meshCoordNew (code.toNat % 1000000 / 10000)
          (code.toNat % 1000000 % 10000 % 1000 / 100)
          (code.toNat % 1000000 % 10000 % 1000 % 100 % 10) with
      | error e =>
        dsimp only
        unfold meshCoordNew meshCoordNewI at hlonc
        split_ifs at hlonc
        injection hlonc with h'
        rw [← h']
      | ok lonc =>
        dsimp only
        have hlat7 : ¬ 7 < decodeLatSecond code.toNat := by
          intro hgt
          unfold meshCoordNew meshCoordNewI at hlatc
          split_ifs at hlatc with hcond
          obtain ⟨-, -, -, h7, -, -⟩ := hcond
          unfold decodeLatSecond at hgt
          omega
        have hlon7 : ¬ 7 < decodeLonSecond code.toNat := by
          intro hgt
          unfold meshCoordNew meshCoordNewI at hlonc
          split_ifs at hlonc with hcond
          obtain ⟨-, -, -, h7, -, -⟩ := hcond
          unfold decodeLonSecond at hgt
          omega
        have hlonc_eq : lonc = decodeLongitude code.toNat := by
          unfold meshCoordNew meshCoordNewI at hlonc
          split_ifs at hlonc
          injection hlonc with h'
          rw [← h']
          unfold decodeLongitude decodeLonSecond
          have g1 : ((code.toNat % 1000000 / 10000 : Nat) : Int).toNat =
              code.toNat % 1000000 / 10000 := Int.toNat_natCast _
          have g2 : ((code.toNat % 1000000 % 10000 % 1000 / 100 : Nat) : Int).toNat =
              code.toNat % 1000000 % 10000 % 1000 / 100 := Int.toNat_natCast _
          have g3 : ((code.toNat % 1000000 % 10000 % 1000 % 100 % 10 : Nat) : Int).toNat =
              code.toNat % 1000000 % 10000 % 1000 % 100 % 10 := Int.toNat_natCast _
          rw [g1, g2, g3]
        rcases hbad with hbad | hbad | hbad
        · exact absurd hbad hlat7
        · exact absurd hbad hlon7
        · unfold meshNodeNew
          rw [if_pos (by rw [hlonc_eq]; exact hbad)]

/-- Witness for the C6 theorem at concrete inputs. -/
theorem fromMeshcode_toMeshcode_roundtrip_witness :
    MeshNode.fromMeshcode
        ((MeshNode.toMeshcode ⟨⟨54, 1, 2⟩, ⟨40, 0, 7⟩⟩ : Nat) : Int) =
      .ok ⟨⟨54, 1, 2⟩, ⟨40, 0, 7⟩⟩ ∧
    MeshNode.fromMeshcode (-1) = .error .valueError ∧
    MeshNode.fromMeshcode 100000000 = .error .valueError ∧
    MeshNode.fromMeshcode 54409027 = .error .valueError :=
  ⟨fromMeshcode_toMeshcode_roundtrip.1 ⟨⟨54, 1, 2⟩, ⟨40, 0, 7⟩⟩ (by decide),
   fromMeshcode_toMeshcode_roundtrip.2.1 (-1) (by decide),
   fromMeshcode_toMeshcode_roundtrip.2.2.1 100000000 (by decide),
   fromMeshcode_toMeshcode_roundtrip.2.2.2 54409027 (by decide) (by decide)
     (Or.inl (by decide))⟩

/-- JavaScript whitespace as stripped by `String.trim` (restricted to the
ASCII whitespace occurring in par files). -/
def jsWhitespace (c : Char) : Bool :=
  c = ' ' || c = '\t' || c = '\n' || c = '\r'

/-- `String.prototype.trim`: strip whitespace from both ends. -/
def trimJs (cs : List Char) : List Char :=
  ((cs.dropWhile jsWhitespace).reverse.dropWhile jsWhitespace).reverse

/-- `String.prototype.substring(start, stop)` for `start ≤ stop`:
characters from index `start` up to (exclusive) `stop`, clamped to the
string length. -/
def substringJs (line : List Char) (start stop : Nat) : List Char :=
  (line.drop start).take (stop - start)

/-- The body `\d+\.\d+` of the parameter pattern, anchored at both ends. -/
def decimalTail (cs : List Char) : Bool :=
  let ds := cs.takeWhile Char.isDigit
  let rest := cs.drop ds.length
  decide (ds ≠ []) &&
    (match rest with
     | '.' :: frac => decide (frac ≠ []) && frac.all Char.isDigit
     | _ => false)

/-- `isParameterString` (src/unnamed/part_006 lines 70-75): the regex
`^-?\d+\.\d+$` — an optional minus sign, no plus sign. -/
def isParameterString (cs : List Char) : Bool :=
  match cs with
  | '-' :: rest => decimalTail rest
  | _ => decimalTail cs

/-- The pattern `^[+-]?\d+\.\d+$` named by the specification (claim
side, for comparison with `isParameterString`). -/
def isSignedParameterString (cs : List Char) : Bool :=
  match cs with
  | '+' :: rest => decimalTail rest
  | '-' :: rest => decimalTail rest
  | _ => decimalTail cs

/-- `isMeshcodeString` (src/unnamed/part_006 lines 66-68): the regex
`^\d{8}$`. -/
def isMeshcodeString (cs : List Char) : Bool :=
  decide (cs.length = 8) && cs.all Char.isDigit

/-- Value of a digit string (`Number.parseInt` on a `\d+` token). -/
def digitsToNat (cs : List Char) : Nat :=
  cs.foldl (fun a c => 10 * a + (c.toNat - 48)) 0

/-- Exact value of a `\d+\.\d+` token.  (`Number.parseFloat` rounds this
to the nearest double; the embedding keeps the exact rational.) -/
def decimalTailToRat (cs : List Char) : ℚ :=
  let ds := cs.takeWhile Char.isDigit
  let rest := cs.drop ds.length
  match rest with
  | _ :: frac => (digitsToNat ds : ℚ) + (digitsToNat frac : ℚ) / 10 ^ frac.length
  | [] => (digitsToNat ds : ℚ)

/-- Exact value of a `-?\d+\.\d+` token. -/
def parseFloatJs (cs : List Char) : ℚ :=
  match cs with
  | '-' :: rest => - decimalTailToRat rest
  | _ => decimalTailToRat cs

/-- `parse_meshcode` (src/unnamed/part_006 lines 84-98): extract, trim,
require the trimmed token to fill the whole column range and match
`^\d{8}$`.  (The error-message arguments `name`/`lineno` are elided.) -/
def parse_meshcode (line : List Char) (start stop : Nat) : Except JgdError Nat :=
  let substring := trimJs (substringJs line start stop)
  if substring.length = stop - start then
    let substring2 := trimJs substring
    if isMeshcodeString substring2 then .ok (digitsToNat substring2)
    else .error .parseError
  else .error .parseError

/-- `parse_parameter` (src/unnamed/part_006 lines 101-116): the raw
substring must fill the whole column range, then its trimmed value must
match `^-?\d+\.\d+$`.  (The error-message arguments are elided.) -/
def parse_parameter (line : List Char) (start stop : Nat) : Except JgdError ℚ :=
  let substring := substringJs line start stop
  if substring.length = stop - start then
    let t := trimJs substring
    if isParameterString t then .ok (parseFloatJs t)
    else .error .parseError
  else .error .parseError

/-- A fixed column range (src/unnamed/part_006, `type Range`). -/
structure Range where
  start : Nat
  stop : Nat
deriving DecidableEq, Repr

/-- The par-file format enumeration (src/unnamed/part_006, `type Format`). -/
inductive Format where
  | TKY2JGD
  | PatchJGD
  | PatchJGD_H
  | PatchJGD_HV
  | HyokoRev
  | SemiDynaEXE
  | geonetF3
  | ITRF2014
deriving DecidableEq, Repr

/-- `meshUnit` (src/unnamed/part_005 lines 37-56). -/
def meshUnit : Format → MeshUnit
  | .TKY2JGD | .PatchJGD | .PatchJGD_H | .PatchJGD_HV | .HyokoRev => .one
  | .SemiDynaEXE | .geonetF3 | .ITRF2014 => .five

/-- The parameter triplet, latitude/longitude in arcseconds
(src/unnamed/part_005, `class Parameter`). -/
structure Parameter where
  latitude : ℚ
  longitude : ℚ
  altitude : ℚ
deriving DecidableEq, Repr

/-- The correction triplet, latitude/longitude in degrees
(src/unnamed/part_005, `class Correction`). -/
structure Correction where
  latitude : ℚ
  longitude : ℚ
  altitude : ℚ
deriving DecidableEq, Repr

/-- The transformer (src/unnamed/part_005, `class Transformer`); the
parameter map is modelled as an association list in insertion order. -/
structure Transformer where
  format : Format
  parameter : List (Nat × Parameter)
  description : Option (List Char)
deriving DecidableEq, Repr

/-- `Map.prototype.get`. -/
def mapGet (m : List (Nat × Parameter)) (k : Nat) : Option Parameter :=
  match m.find? (fun e => e.1 == k) with
  | some e => some e.2
  | none => none

/-- `Map.prototype.set`: overwrite in place, else append. -/
def mapSet (m : List (Nat × Parameter)) (k : Nat) (v : Parameter) :
    List (Nat × Parameter) :=
  if m.any (fun e => e.1 == k) then
    m.map (fun e => if e.1 == k then (k, v) else e)
  else m ++ [(k, v)]

/-- The fixed-width parser configuration (src/unnamed/part_006,
`class Parser`): header line count plus the column range of each field,
`none` when the format does not carry the field. -/
structure Parser where
  format : Format
  header : Nat
  meshcode : Range
  latitude : Option Range
  longitude : Option Range
  altitude : Option Range
deriving DecidableEq, Repr

/-- `Parser.fromFormat` (src/unnamed/part_006 lines 143-194). -/
def Parser.fromFormat : Format → Parser
  | .TKY2JGD => ⟨.TKY2JGD, 2, ⟨0, 8⟩, some ⟨9, 18⟩, some ⟨19, 28⟩, none⟩
  | .PatchJGD => ⟨.PatchJGD, 16, ⟨0, 8⟩, some ⟨9, 18⟩, some ⟨19, 28⟩, none⟩
  | .PatchJGD_H => ⟨.PatchJGD_H, 16, ⟨0, 8⟩, none, none, some ⟨9, 18⟩⟩
  | .PatchJGD_HV => ⟨.PatchJGD_HV, 16, ⟨0, 8⟩, some ⟨9, 18⟩, some ⟨19, 28⟩, some ⟨29, 38⟩⟩
  | .SemiDynaEXE => ⟨.SemiDynaEXE, 16, ⟨0, 8⟩, some ⟨9, 18⟩, some ⟨19, 28⟩, some ⟨29, 38⟩⟩
  | .HyokoRev => ⟨.HyokoRev, 16, ⟨0, 8⟩, none, none, some ⟨12, 21⟩⟩
  | .geonetF3 => ⟨.geonetF3, 18, ⟨0, 8⟩, some ⟨12, 21⟩, some ⟨22, 31⟩, some ⟨32, 41⟩⟩
  | .ITRF2014 => ⟨.ITRF2014, 18, ⟨0, 8⟩, some ⟨12, 21⟩, some ⟨22, 31⟩, some ⟨32, 41⟩⟩

/-- `text.split("\n")`. -/
def splitNl : List Char → List (List Char)
  | [] => [[]]
  | c :: rest =>
    if c = '\n' then [] :: splitNl rest
    else
      match splitNl rest with
      | [] => [[c]]
      | l :: ls => (c :: l) :: ls

/-- The line splitting of `Parser.parse` (src/unnamed/part_006 lines
198-200): drop one trailing `"\n"` when present, then split. -/
def linesOf (text : List Char) : List (List Char) :=
  splitNl (if text.getLast? = some '\n' then text.dropLast else text)

/-- `lines.join("\n")`. -/
def intercalateNl : List (List Char) → List Char
  | [] => []
  | [l] => l
  | l :: ls => l ++ '\n' :: intercalateNl ls

/-- `stop` of an optional range, `Number.MIN_SAFE_INTEGER` when absent
(src/unnamed/part_006 lines 216-221). -/
def stopOrMin : Option Range → Int
  | some r => r.stop
  | none => -9007199254740991

/-- The `endOfLine` bound of `Parser.parse` (src/unnamed/part_006 lines
216-221). -/
def Parser.endOfLine (p : Parser) : Int :=
  max (max (max (p.meshcode.stop : Int) (stopOrMin p.latitude))
    (stopOrMin p.longitude)) (stopOrMin p.altitude)

/-- The per-field dispatch of `Parser.parse` (src/unnamed/part_006 lines
235-263): a field with no defined range is `0.0`, otherwise it is parsed
from its column range. -/
def parseField (line : List Char) : Option Range → Except JgdError ℚ
  | none => .ok 0
  | some r => parse_parameter line r.start r.stop

/-- The loop body of `Parser.parse` (src/unnamed/part_006 lines 223-266):
line-length bound, meshcode, then the three fields. -/
def parseLine (p : Parser) (line : List Char) : Except JgdError (Nat × Parameter) :=
  if p.endOfLine < (line.length : Int) then .error .parseError
  else
    match parse_meshcode line p.meshcode.start p.meshcode.stop with
    | .error e => .error e
    | .ok meshcode =>
      match parseField line p.latitude with
      | .error e => .error e
      | .ok latitude =>
        match parseField line p.longitude with
        | .error e => .error e
        | .ok longitude =>
          match parseField line p.altitude with
          | .error e => .error e
          | .ok altitude => .ok (meshcode, ⟨latitude, longitude, altitude⟩)

/-- The data-line loop of `Parser.parse`: later duplicate meshcodes
overwrite earlier entries via `mapSet`. -/
def parseLines (p : Parser) :
    List (List Char) → List (Nat × Parameter) → Except JgdError (List (Nat × Parameter))
  | [], m => .ok m
  | line :: rest, m =>
    match parseLine p line with
    | .error e => .error e
    | .ok kv => parseLines p rest (mapSet m kv.1 kv.2)

/-- `Parser.parse` (src/unnamed/part_006 lines 196-270). -/
def Parser.parse (p : Parser) (text : List Char) (description : Option (List Char)) :
    Except JgdError Transformer :=
  let lines := linesOf text
  let temp := lines.take p.header
  if temp.length ≠ p.header then .error .parseError
  else
    let header := match description with
      | some d => d
      | none => intercalateNl temp ++ ['\n']
    match parseLines p (lines.drop p.header) [] with
    | .error e => .error e
    | .ok m => .ok ⟨p.format, m, some header⟩

/-- C9: `Parser.parse` splits on line breaks dropping exactly one
trailing empty line when the text ends with a separator, fails with a
parse error when fewer than `header` lines exist, and with no
description argument sets the transformer's description to the first
`header` lines joined by line breaks with a trailing separator
(src/unnamed/part_006 lines 196-207). -/
theorem parse_split_header_description :
    (∀ s : List Char, linesOf (s ++ ['\n']) = splitNl s) ∧
    (∀ t : List Char, t.getLast? ≠ some '\n' → linesOf t = splitNl t) ∧
    (∀ (p : Parser) (text : List Char) (d : Option (List Char)),
      (linesOf text).length < p.header → p.parse text d = .error .parseError) ∧
    (∀ (p : Parser) (text : List Char) (tf : Transformer),
      p.parse text none = .ok tf →
      tf.description =
        some (intercalateNl ((linesOf text).take p.header) ++ ['\n'])) := by
  refine ⟨?_, ?_, ?_, ?_⟩
  · intro s
    unfold linesOf
    rw [if_pos (List.getLast?_concat _), List.dropLast_concat]
  · intro t h
    unfold linesOf
    rw [if_neg h]
  · intro p text d h
    unfold Parser.parse
    rw [if_pos (by rw [List.length_take]; omega)]
  · intro p text tf h
    unfold Parser.parse at h
    dsimp only at h
    split_ifs at h with hlen
    split at h
    · exact Except.noConfusion h
    · injection h with h'
      rw [← h']

/-- Witness for the C9 theorem at concrete inputs. -/
theorem parse_split_header_description_witness :
    linesOf ("ab\n".toList ++ ['\n']) = splitNl ("ab\n".toList) ∧
    linesOf ("ab".toList) = splitNl ("ab".toList) ∧
    (Parser.fromFormat .TKY2JGD).parse ("x".toList) none = .error .parseError ∧
    (⟨.TKY2JGD, [], some ("a\nb\n".toList)⟩ : Transformer).description =
      some (intercalateNl ((linesOf ("a\nb\n".toList)).take
        (Parser.fromFormat .TKY2JGD).header) ++ ['\n']) :=
  ⟨parse_split_header_description.1 ("ab\n".toList),
   parse_split_header_description.2.1 ("ab".toList) (by decide),
   parse_split_header_description.2.2.1 (Parser.fromFormat .TKY2JGD)
     ("x".toList) none (by decide),
   parse_split_header_description.2.2.2 (Parser.fromFormat .TKY2JGD)
     ("a\nb\n".toList) ⟨.TKY2JGD, [], some ("a\nb\n".toList)⟩ (by decide)⟩

/-- Inversion of a successful `parseLine`. -/
theorem parseLine_ok_inv (p : Parser) (line : List Char) (k : Nat)
    (prm : Parameter) (h : parseLine p line = .ok (k, prm)) :
    parse_meshcode line p.meshcode.start p.meshcode.stop = .ok k ∧
    parseField line p.latitude = .ok prm.latitude ∧
    parseField line p.longitude = .ok prm.longitude ∧
    parseField line p.altitude = .ok prm.altitude := by
  unfold parseLine at h
  split_ifs at h
  split at h
  · exact Except.noConfusion h
  · next mc hmc =>
    split at h
    · exact Except.noConfusion h
    · next lat hlat =>
      split at h
      · exact Except.noConfusion h
      · next lon hlon =>
        split at h
        · exact Except.noConfusion h
        · next alt halt =>
          injection h with h'
          obtain ⟨h1, h2⟩ := Prod.mk.injEq _ _ _ _ ▸ h'
          rw [← h1, ← h2]
          exact ⟨hmc, hlat, hlon, halt⟩

/-- A field with no defined column range parses to `0`. -/
theorem parseField_none_ok (line : List Char) (q : ℚ)
    (h : parseField line none = .ok q) : q = 0 := by
  unfold parseField at h
  injection h with h'
  exact h'.symm

/-- C3 (amended): `parse_parameter` accepts a field iff the raw extracted
substring fills the whole column range and its trimmed value matches
`^-?\d+\.\d+$` (a leading plus sign is rejected), in which case the value
is the decimal the token denotes; and a field whose column range is not
defined for the format parses to `0.0`
(src/unnamed/part_006 lines 70-75, 100-116 and 235-263). -/
theorem parse_parameter_acceptance :
    (∀ (line : List Char) (start stop : Nat),
      (∃ q, parse_parameter line start stop = .ok q) ↔
        ((substringJs line start stop).length = stop - start ∧
          isParameterString (trimJs (substringJs line start stop)) = true)) ∧
    (∀ (line : List Char) (start stop : Nat),
      (substringJs line start stop).length = stop - start →
      isParameterString (trimJs (substringJs line start stop)) = true →
      parse_parameter line start stop =
        .ok (parseFloatJs (trimJs (substringJs line start stop)))) ∧
    (∀ (p : Parser) (line : List Char) (k : Nat) (prm : Parameter),
      p.latitude = none → parseLine p line = .ok (k, prm) →
        prm.latitude = 0) ∧
    (∀ (p : Parser) (line : List Char) (k : Nat) (prm : Parameter),
      p.longitude = none → parseLine p line = .ok (k, prm) →
        prm.longitude = 0) ∧
    (∀ (p : Parser) (line : List Char) (k : Nat) (prm : Parameter),
      p.altitude = none → parseLine p line = .ok (k, prm) →
        prm.altitude = 0) := by
  refine ⟨?_, ?_, ?_, ?_, ?_⟩
  · intro line start stop
    constructor
    · rintro ⟨q, hq⟩
      unfold parse_parameter at hq
      dsimp only at hq
      split_ifs at hq with h1 h2
      exact ⟨h1, h2⟩
    · rintro ⟨h1, h2⟩
      refine ⟨parseFloatJs (trimJs (substringJs line start stop)), ?_⟩
      unfold parse_parameter
      dsimp only
      rw [if_pos h1, if_pos h2]
  · intro line start stop h1 h2
    unfold parse_parameter
    dsimp only
    rw [if_pos h1, if_pos h2]
  · intro p line k prm hnone h
    obtain ⟨-, hlat, -, -⟩ := parseLine_ok_inv p line k prm h
    rw [hnone] at hlat
    exact parseField_none_ok _ _ hlat
  · intro p line k prm hnone h
    obtain ⟨-, -, hlon, -⟩ := parseLine_ok_inv p line k prm h
    rw [hnone] at hlon
    exact parseField_none_ok _ _ hlon
  · intro p line k prm hnone h
    obtain ⟨-, -, -, halt⟩ := parseLine_ok_inv p line k prm h
    rw [hnone] at halt
    exact parseField_none_ok _ _ halt

/-- Counterexample to C3 as stated: the trimmed token `+1.0` matches the
claimed pattern `^[+-]?\d+\.\d+$`, yet `parse_parameter` raises a parse
error on it; and a line shorter than the column range is rejected even
though its trimmed extraction `1.0` matches the pattern. -/
theorem parse_parameter_plus_rejected :
    isSignedParameterString ("+1.0".toList) = true ∧
    trimJs (substringJs ("     +1.0".toList) 0 9) = "+1.0".toList ∧
    parse_parameter ("     +1.0".toList) 0 9 = .error .parseError ∧
    isSignedParameterString (trimJs (substringJs ("1.0".toList) 0 9)) = true ∧
    parse_parameter ("1.0".toList) 0 9 = .error .parseError := by
  refine ⟨by decide, by decide, by decide, by decide, by decide⟩

/-- Witness for the C3 amended theorem at concrete inputs. -/
theorem parse_parameter_acceptance_witness :
    parse_parameter (" -1.25   ".toList) 0 9 =
      .ok (parseFloatJs (trimJs (substringJs (" -1.25   ".toList) 0 9))) ∧
    (⟨0, 0, 0⟩ : Parameter).altitude = 0 :=
  ⟨parse_parameter_acceptance.2.1 (" -1.25   ".toList) 0 9 (by decide) (by decide),
   parse_parameter_acceptance.2.2.2.2
     ⟨.TKY2JGD, 0, ⟨0, 8⟩, none, none, none⟩ ("12345678".toList) 12345678
     ⟨0, 0, 0⟩ (by decide) (by decide)⟩

/-- `bilinearInterpolation` (src/unnamed/part_005 lines 20-35); the last
two arguments are named `latitude` and `longitude` in the source. -/
def bilinearInterpolation (sw se nw nE latitude longitude : ℚ) : ℚ :=
  sw * (1 - longitude) * (1 - latitude) +
    se * longitude * (1 - latitude) +
    nw * (1 - longitude) * latitude +
    nE * longitude * latitude

/-- `Transformer.ERROR_MAX` (src/unnamed/part_005 lines 374-376): `5e-14`. -/
def ERROR_MAX : ℚ := 5 / 10 ^ 14

/-- `Point.add` (src/src/point.ts lines 311-321): pointwise sum, no
normalization. -/
def Point.add (p : Point) (corr : Correction) : Point :=
  ⟨p.latitude + corr.latitude, p.longitude + corr.longitude,
    p.altitude + corr.altitude⟩

/-- One corner lookup of `Transformer.parameterQuadruple`
(src/unnamed/part_005 lines 682-710): absent corner raises
`ParameterNotFoundError` naming the corner. -/
def getOrNotFound (m : List (Nat × Parameter)) (k : Nat) (corner : String) :
    Except JgdError Parameter :=
  match mapGet m k with
  | none => .error (.parameterNotFound corner)
  | some p => .ok p

/-- `Transformer.parameterQuadruple` (src/unnamed/part_005 lines 682-710). -/
def Transformer.parameterQuadruple (tf : Transformer) (cell : MeshCell) :
    Except JgdError (Parameter × Parameter × Parameter × Parameter) :=
  match getOrNotFound tf.parameter cell.southWest.toMeshcode "south west" with
  | .error e => .error e
  | .ok sw =>
    match getOrNotFound tf.parameter cell.southEast.toMeshcode "south east" with
    | .error e => .error e
    | .ok se =>
      match getOrNotFound tf.parameter cell.northWest.toMeshcode "north west" with
      | .error e => .error e
      | .ok nw =>
        match getOrNotFound tf.parameter cell.northEast.toMeshcode "north east" with
        | .error e => .error e
        | .ok nE => .ok (sw, se, nw, nE)

/-- The `try MeshCell.fromPoint … catch` wrapper of the transformer
(src/unnamed/part_005 lines 743-752 and 883-892): any cell-construction
failure is rethrown as `PointError`. -/
def cellAtPoint (point : Point) (u : MeshUnit) : Except JgdError MeshCell :=
  match MeshCell.fromPoint point u with
  | .error _ => .error .pointError
  | .ok cell => .ok cell

/-- `Transformer.forwardCorrection` (src/unnamed/part_005 lines 738-789):
resolve the cell, look up the four corner parameters, destructure
`const [y, x] = cell.position(point)` and interpolate each component;
latitude/longitude are divided by `SCALE = 3600`. -/
def Transformer.forwardCorrection (tf : Transformer) (point : Point) :
    Except JgdError Correction :=
  match cellAtPoint point (meshUnit tf.format) with
  | .error e => .error e
  | .ok cell =>
    match tf.parameterQuadruple cell with
    | .error e => .error e
    | .ok (sw, se, nw, nE) =>
      let y := (cell.position point).1
      let x := (cell.position point).2
      let latitude :=
        bilinearInterpolation sw.latitude se.latitude nw.latitude nE.latitude y x
          / 3600
      let longitude :=
        bilinearInterpolation sw.longitude se.longitude nw.longitude nE.longitude y x
          / 3600
      let altitude :=
        bilinearInterpolation sw.altitude se.altitude nw.altitude nE.altitude y x
      .ok ⟨latitude, longitude, altitude⟩

/-- `Transformer.forward` (src/unnamed/part_005 lines 594-597). -/
def Transformer.forward (tf : Transformer) (point : Point) :
    Except JgdError Point :=
  match tf.forwardCorrection point with
  | .error e => .error e
  | .ok corr => .ok (point.add corr)

/-- The body of one Newton iteration of `Transformer.backwardCorrection`
(src/unnamed/part_005 lines 894-944): residuals from the interpolated
correction at the current iterate, the four Jacobian entries
`fx_x, fx_y, fy_x, fy_y` (note the corner differences are weighted by the
raw iterate coordinates `yn`, `xn`, not by the cell-local position), and
the Cramer update of `(xn, yn)`. -/
def Transformer.backwardStep (cell : MeshCell) (sw se nw nE : Parameter)
    (point : Point) (xn yn : ℚ) : ℚ × ℚ :=
  let current : Point := ⟨yn, xn, 0⟩
  let y := (cell.position current).1
  let x := (cell.position current).2
  let corr_x :=
    bilinearInterpolation sw.longitude se.longitude nw.longitude nE.longitude y x
      / 3600
  let corr_y :=
    bilinearInterpolation sw.latitude se.latitude nw.latitude nE.latitude y x
      / 3600
  let fx := point.longitude - (xn + corr_x)
  let fy := point.latitude - (yn + corr_y)
  let fx_x := -1 -
    ((se.longitude - sw.longitude) * (1 - yn) +
      (nE.longitude - nw.longitude) * yn) / 3600
  let fx_y :=
    -(((nw.longitude - sw.longitude) * (1 - xn) +
      (nE.longitude - se.longitude) * xn) / 3600)
  let fy_x :=
    -(((se.latitude - sw.latitude) * (1 - yn) +
      (nE.latitude - nw.latitude) * yn) / 3600)
  let fy_y := -1 -
    ((nw.latitude - sw.latitude) * (1 - xn) +
      (nE.latitude - se.latitude) * xn) / 3600
  let det := fx_x * fy_y - fx_y * fy_x
  (xn - (fy_y * fx - fx_y * fy) / det, yn - (fx_x * fy - fy_x * fx) / det)

/-- The bounded Newton loop of `Transformer.backwardCorrection`
(src/unnamed/part_005 lines 880-958), with the remaining iteration count
as fuel: each iteration resolves the cell and corner parameters from the
original `point`, performs the Newton update, re-evaluates
`forwardCorrection` at the new iterate, and returns the negated
correction when both residuals are below `ERROR_MAX`; exhausted fuel is
the `CorrectionNotFoundError` thrown after the loop. -/
def Transformer.backwardGo (tf : Transformer) (point : Point) :
    Nat → ℚ → ℚ → Except JgdError Correction
  | 0, _, _ => .error .correctionNotFound
  | n + 1, xn, yn =>
    match cellAtPoint point (meshUnit tf.format) with
    | .error e => .error e
    | .ok cell =>
      match tf.parameterQuadruple cell with
      | .error e => .error e
      | .ok (sw, se, nw, nE) =>
        let next := Transformer.backwardStep cell sw se nw nE point xn yn
        match tf.forwardCorrection ⟨next.2, next.1, 0⟩ with
        | .error e => .error e
        | .ok corr =>
          let delta_x := point.longitude - (next.1 + corr.longitude)
          let delta_y := point.latitude - (next.2 + corr.latitude)
          if |delta_x| < ERROR_MAX ∧ |delta_y| < ERROR_MAX then
            .ok ⟨-corr.latitude, -corr.longitude, -corr.altitude⟩
          else Transformer.backwardGo tf point n next.1 next.2

/-- `Transformer.backwardCorrection` (src/unnamed/part_005 lines 869-961):
`ITERATION = 4` attempts starting from the target point itself. -/
def Transformer.backwardCorrection (tf : Transformer) (point : Point) :
    Except JgdError Correction :=
  Transformer.backwardGo tf point 4 point.longitude point.latitude

/-- `Transformer.backward` (src/unnamed/part_005 lines 676-679). -/
def Transformer.backward (tf : Transformer) (point : Point) :
    Except JgdError Point :=
  match tf.backwardCorrection point with
  | .error e => .error e
  | .ok corr => .ok (point.add corr)

/-- `Transformer.transform` (src/unnamed/part_005 lines 556-563):
`const func = backward ? this.forward : this.backward` — the JavaScript
default `backward = false` corresponds to the second argument `false`. -/
def Transformer.transform (tf : Transformer) (point : Point) (backward : Bool) :
    Except JgdError Point :=
  if backward then Transformer.forward tf point
  else Transformer.backward tf point

/-- The claimed local abscissa `u = 80·(lon − swLon)` (unit 1), resp.
`16·(lon − swLon)` (unit 5) — claim side, for comparison with the code's
`position`/`bilinearInterpolation` composition. -/
def claimLocalU (cell : MeshCell) (point : Point) : ℚ :=
  (match cell.meshUnit with | .one => 80 | .five => 16) *
    (point.longitude - cell.southWest.longitude.toLongitude)

/-- The claimed local ordinate `v = 120·(lat − swLat)` (unit 1), resp.
`24·(lat − swLat)` (unit 5) — claim side. -/
def claimLocalV (cell : MeshCell) (point : Point) : ℚ :=
  (match cell.meshUnit with | .one => 120 | .five => 24) *
    (point.latitude - cell.southWest.latitude.toLatitude)

/-- C10: in `forwardCorrection`, with `u`, `v` the longitude/latitude
fractions of the point inside its cell, the weight the interpolation
applies to the south-east corner value is `v·(1−u)` and the weight on
the north-west corner value is `u·(1−v)` (the south-west weight is
`(1−u)(1−v)`, the north-east weight `u·v`): `position` returns the pair
`(80·Δlon, 120·Δlat)` which `forwardCorrection` destructures as
`[y, x]`, so `bilinearInterpolation`'s `latitude` slot receives the
longitude fraction and vice versa (src/unnamed/part_005 lines 20-35 and
754-789, src/src/mesh.ts lines 1236-1247). -/
theorem forwardCorrection_corner_weights (cell : MeshCell) (point : Point)
    (sw se nw nE : ℚ) :
    bilinearInterpolation sw se nw nE (cell.position point).1
        (cell.position point).2 =
      sw * (1 - claimLocalU cell point) * (1 - claimLocalV cell point) +
        se * claimLocalV cell point * (1 - claimLocalU cell point) +
        nw * claimLocalU cell point * (1 - claimLocalV cell point) +
        nE * claimLocalU cell point * claimLocalV cell point := by
  obtain ⟨sway, a, b, c, u⟩ := cell
  cases u <;>
    · simp only [bilinearInterpolation, MeshCell.position, claimLocalU,
        claimLocalV]
      ring

/-- The newtonResidual `(fx, fy)` of one Newton iteration, as the claim reads
it (identical to the code's). -/
def newtonResidual (cell : MeshCell) (sw se nw nE : Parameter) (point : Point)
    (xn yn : ℚ) : ℚ × ℚ :=
  let y := (cell.position ⟨yn, xn, 0⟩).1
  let x := (cell.position ⟨yn, xn, 0⟩).2
  (point.longitude - (xn +
      bilinearInterpolation sw.longitude se.longitude nw.longitude nE.longitude y x
        / 3600),
   point.latitude - (yn +
      bilinearInterpolation sw.latitude se.latitude nw.latitude nE.latitude y x
        / 3600))

/-- The Jacobian `(fx_x, fx_y, fy_x, fy_y)` the code actually computes:
corner differences weighted by the raw iterate coordinates `xn`, `yn`
in degrees, scaled by `1/3600`, `−1` on the diagonal (amended claim
side). -/
def degreeWeightedJacobian (sw se nw nE : Parameter) (xn yn : ℚ) :
    ℚ × ℚ × ℚ × ℚ :=
  (-1 - ((se.longitude - sw.longitude) * (1 - yn) +
      (nE.longitude - nw.longitude) * yn) / 3600,
   -(((nw.longitude - sw.longitude) * (1 - xn) +
      (nE.longitude - se.longitude) * xn) / 3600),
   -(((se.latitude - sw.latitude) * (1 - yn) +
      (nE.latitude - nw.latitude) * yn) / 3600),
   -1 - ((nw.latitude - sw.latitude) * (1 - xn) +
      (nE.latitude - se.latitude) * xn) / 3600)

/-- The Jacobian the original claim describes: the same corner
differences weighted by the cell-local coordinates of the current
iterate (the `[y, x]` pair `position` returns there), scaled by
`1/3600`, `−1` on the diagonal (claim side). -/
def localWeightedJacobian (cell : MeshCell) (sw se nw nE : Parameter)
    (xn yn : ℚ) : ℚ × ℚ × ℚ × ℚ :=
  let y := (cell.position ⟨yn, xn, 0⟩).1
  let x := (cell.position ⟨yn, xn, 0⟩).2
  (-1 - ((se.longitude - sw.longitude) * (1 - y) +
      (nE.longitude - nw.longitude) * y) / 3600,
   -(((nw.longitude - sw.longitude) * (1 - x) +
      (nE.longitude - se.longitude) * x) / 3600),
   -(((se.latitude - sw.latitude) * (1 - y) +
      (nE.latitude - nw.latitude) * y) / 3600),
   -1 - ((nw.latitude - sw.latitude) * (1 - x) +
      (nE.latitude - se.latitude) * x) / 3600)

/-- Determinant of a 2×2 Jacobian quadruple `(fx_x, fx_y, fy_x, fy_y)`:
`fx_x·fy_y − fx_y·fy_x`. -/
def jacDet (j : ℚ × ℚ × ℚ × ℚ) : ℚ :=
  j.1 * j.2.2.2 - j.2.1 * j.2.2.1

/-- Application of a 2×2 Jacobian quadruple to a vector. -/
def jacApply (j : ℚ × ℚ × ℚ × ℚ) (v : ℚ × ℚ) : ℚ × ℚ :=
  (j.1 * v.1 + j.2.1 * v.2, j.2.2.1 * v.1 + j.2.2.2 * v.2)

/-- The Cramer-rule Newton update of `(xn, yn)` for newtonResidual `f` and
Jacobian `j`. -/
def cramerUpdate (j : ℚ × ℚ × ℚ × ℚ) (f : ℚ × ℚ) (xn yn : ℚ) : ℚ × ℚ :=
  (xn - (j.2.2.2 * f.1 - j.2.1 * f.2) / jacDet j,
   yn - (j.1 * f.2 - j.2.2.1 * f.1) / jacDet j)

/-- The Newton step the original claim describes: Cramer update with the
locally-weighted Jacobian (claim side). -/
def claimNewtonStep (cell : MeshCell) (sw se nw nE : Parameter)
    (point : Point) (xn yn : ℚ) : ℚ × ℚ :=
  cramerUpdate (localWeightedJacobian cell sw se nw nE xn yn)
    (newtonResidual cell sw se nw nE point xn yn) xn yn

/-- A Cramer-rule update against an invertible 2×2 system recovers the
residual. -/
theorem cramerUpdate_solves (j : ℚ × ℚ × ℚ × ℚ) (f : ℚ × ℚ) (xn yn : ℚ)
    (hdet : jacDet j ≠ 0) :
    jacApply j (xn - (cramerUpdate j f xn yn).1, yn - (cramerUpdate j f xn yn).2) = f := by
  obtain ⟨j11, j12, j21, j22⟩ := j
  obtain ⟨f1, f2⟩ := f
  unfold jacApply cramerUpdate jacDet at *
  dsimp only at *
  rw [Prod.mk.injEq]
  constructor
  · field_simp
    ring
  · field_simp
    ring

/-- C2 (amended): every iteration of `backwardCorrection` computes the
Jacobian entries as the corner differences weighted by the raw iterate
coordinates `xn`, `yn` (not the cell-local coordinates), scaled by
`1/3600` with `−1` on each diagonal entry, and updates the iterate by
the Cramer-rule solution with `det = fx_x·fy_y − fx_y·fy_x`; when that
determinant is nonzero the update indeed solves the 2×2 linear system
`J·(xn − xn', yn − yn') = (fx, fy)` (src/unnamed/part_005 lines
916-944). -/
theorem backwardStep_cramer (cell : MeshCell) (sw se nw nE : Parameter)
    (point : Point) (xn yn : ℚ) :
    Transformer.backwardStep cell sw se nw nE point xn yn =
      cramerUpdate (degreeWeightedJacobian sw se nw nE xn yn)
        (newtonResidual cell sw se nw nE point xn yn) xn yn ∧
    (jacDet (degreeWeightedJacobian sw se nw nE xn yn) ≠ 0 →
      jacApply (degreeWeightedJacobian sw se nw nE xn yn)
        (xn - (Transformer.backwardStep cell sw se nw nE point xn yn).1,
         yn - (Transformer.backwardStep cell sw se nw nE point xn yn).2) =
        newtonResidual cell sw se nw nE point xn yn) := by
  have h1 : Transformer.backwardStep cell sw se nw nE point xn yn =
      cramerUpdate (degreeWeightedJacobian sw se nw nE xn yn)
        (newtonResidual cell sw se nw nE point xn yn) xn yn := by
    unfold Transformer.backwardStep cramerUpdate degreeWeightedJacobian
      newtonResidual jacDet
    dsimp only
  refine ⟨h1, fun hdet => ?_⟩
  rw [h1]
  exact cramerUpdate_solves _ _ xn yn hdet

/-- A concrete parameter with only an altitude component. -/
def prmC : Parameter := ⟨0, 0, 5⟩

/-- A concrete zero parameter. -/
def prmZero : Parameter := ⟨0, 0, 0⟩

/-- A concrete parameter with a large longitude component. -/
def prmNeC2 : Parameter := ⟨0, 3600, 0⟩

/-- A concrete point in the middle of unit-1 cell `54400000`. -/
def pC : Point := ⟨36 + 1/240, 140 + 1/160, 0⟩

/-- The unit-1 cell with south-west node `54400000`. -/
def cellC : MeshCell :=
  ⟨⟨⟨54, 0, 0⟩, ⟨40, 0, 0⟩⟩, ⟨⟨54, 0, 0⟩, ⟨40, 0, 1⟩⟩,
   ⟨⟨54, 0, 1⟩, ⟨40, 0, 0⟩⟩, ⟨⟨54, 0, 1⟩, ⟨40, 0, 1⟩⟩, .one⟩

/-- A concrete transformer whose map holds the four corners of `cellC`,
each with parameter `prmC`. -/
def tfC : Transformer :=
  ⟨.TKY2JGD,
   [(54400000, prmC), (54400001, prmC), (54400010, prmC), (54400011, prmC)],
   none⟩

/-- Quantization of `pC`'s latitude. -/
theorem fromLatitude_pC :
    MeshCoord.fromLatitude (36 + 1/240 : ℚ) .one = .ok ⟨54, 0, 0⟩ := by
  unfold MeshCoord.fromLatitude MeshCoord.fromDegree meshCoordNewI
  norm_num
  decide

/-- Quantization of `pC`'s longitude. -/
theorem fromLongitude_pC :
    MeshCoord.fromLongitude (140 + 1/160 : ℚ) .one = .ok ⟨40, 0, 0⟩ := by
  unfold MeshCoord.fromLongitude MeshCoord.fromDegree meshCoordNewI
  norm_num
  decide

/-- The south-west node of `pC`. -/
theorem fromPoint_pC :
    MeshNode.fromPoint pC .one = .ok ⟨⟨54, 0, 0⟩, ⟨40, 0, 0⟩⟩ := by
  unfold MeshNode.fromPoint pC
  rw [show (Point.mk (36 + 1/240) (140 + 1/160) 0).latitude = (36 + 1/240 : ℚ)
    from rfl]
  rw [show (Point.mk (36 + 1/240) (140 + 1/160) 0).longitude = (140 + 1/160 : ℚ)
    from rfl]
  rw [fromLatitude_pC, fromLongitude_pC]
  decide

/-- The enclosing cell of `pC`. -/
theorem cellAtPoint_pC : cellAtPoint pC .one = .ok cellC := by
  unfold cellAtPoint MeshCell.fromPoint
  rw [fromPoint_pC]
  decide

/-- `pC` sits at local position `(1/2, 1/2)` in its cell. -/
theorem position_pC : cellC.position pC = (1/2, 1/2) := by
  unfold MeshCell.position cellC pC MeshCoord.toLatitude MeshCoord.toLongitude
    MeshCoord.toDegree
  norm_num

/-- Corner-parameter lookup for `tfC` at `cellC`. -/
theorem quad_tfC :
    Transformer.parameterQuadruple tfC cellC = .ok (prmC, prmC, prmC, prmC) := by
  decide

/-- Forward correction of `tfC` at `pC`: a pure altitude shift of `5`. -/
theorem forwardCorrection_tfC :
    Transformer.forwardCorrection tfC pC = .ok ⟨0, 0, 5⟩ := by
  unfold Transformer.forwardCorrection
  rw [show meshUnit tfC.format = MeshUnit.one from rfl]
  rw [cellAtPoint_pC]
  dsimp only
  rw [quad_tfC]
  dsimp only
  rw [position_pC]
  unfold bilinearInterpolation prmC
  norm_num

/-- The Newton update of `tfC` at `pC` starting from `pC` itself is a
fixed point: the latitude/longitude parameters are all zero. -/
theorem backwardStep_tfC :
    Transformer.backwardStep cellC prmC prmC prmC prmC pC
        (140 + 1/160) (36 + 1/240) = (140 + 1/160, 36 + 1/240) := by
  unfold Transformer.backwardStep
  dsimp only
  rw [show (⟨36 + 1/240, 140 + 1/160, 0⟩ : Point) = pC from rfl]
  rw [position_pC]
  unfold bilinearInterpolation prmC pC
  norm_num

/-- Unfolding of one successful, converged `backwardGo` iteration. -/
theorem backwardGo_converged (tf : Transformer) (point : Point) (n : Nat)
    (xn yn : ℚ) (cell : MeshCell) (sw se nw nE : Parameter) (corr : Correction)
    (hc : cellAtPoint point (meshUnit tf.format) = .ok cell)
    (hq : tf.parameterQuadruple cell = .ok (sw, se, nw, nE))
    (hf : tf.forwardCorrection
        ⟨(Transformer.backwardStep cell sw se nw nE point xn yn).2,
         (Transformer.backwardStep cell sw se nw nE point xn yn).1, 0⟩ = .ok corr)
    (hconv : |point.longitude -
        ((Transformer.backwardStep cell sw se nw nE point xn yn).1 +
          corr.longitude)| < ERROR_MAX ∧
      |point.latitude -
        ((Transformer.backwardStep cell sw se nw nE point xn yn).2 +
          corr.latitude)| < ERROR_MAX) :
    Transformer.backwardGo tf point (n + 1) xn yn =
      .ok ⟨-corr.latitude, -corr.longitude, -corr.altitude⟩ := by
  unfold Transformer.backwardGo
  rw [hc]
  dsimp only
  rw [hq]
  dsimp only
  rw [hf]
  dsimp only
  rw [if_pos hconv]

/-- The backward correction of `tfC` at `pC` converges in the first
iteration to the negated altitude shift. -/
theorem backwardCorrection_tfC :
    Transformer.backwardCorrection tfC pC = .ok ⟨0, 0, -5⟩ := by
  unfold Transformer.backwardCorrection
  show Transformer.backwardGo tfC pC (3 + 1) (140 + 1/160) (36 + 1/240) = _
  have h := backwardGo_converged tfC pC 3 (140 + 1/160) (36 + 1/240) cellC
    prmC prmC prmC prmC ⟨0, 0, 5⟩
    (by rw [show meshUnit tfC.format = MeshUnit.one from rfl]; exact cellAtPoint_pC)
    quad_tfC
    (by rw [backwardStep_tfC]; exact forwardCorrection_tfC)
    (by rw [backwardStep_tfC]; unfold pC ERROR_MAX; norm_num)
  rw [h]
  norm_num

/-- Forward transform of `tfC` at `pC`. -/
theorem forward_tfC :
    Transformer.forward tfC pC = .ok ⟨36 + 1/240, 140 + 1/160, 5⟩ := by
  unfold Transformer.forward
  rw [forwardCorrection_tfC]
  dsimp only
  unfold Point.add pC
  norm_num

/-- Backward transform of `tfC` at `pC`. -/
theorem backward_tfC :
    Transformer.backward tfC pC = .ok ⟨36 + 1/240, 140 + 1/160, -5⟩ := by
  unfold Transformer.backward
  rw [backwardCorrection_tfC]
  dsimp only
  unfold Point.add pC
  norm_num

/-- C1: the ternary in `Transformer.transform`
(src/unnamed/part_005 line 561, `const func = backward ? this.forward :
this.backward`) is inverted relative to its own documentation
(`@param backward If true, this performs backward transformation`): for
every transformer and point, `transform(p, false)` — the default — runs
the backward transformation and `transform(p, true)` runs the forward
one, and at the concrete `tfC`, `pC` the two transformations disagree,
so the swap is observable. -/
theorem transform_dispatch_inverted :
    (∀ (tf : Transformer) (p : Point),
      Transformer.transform tf p false = Transformer.backward tf p ∧
      Transformer.transform tf p true = Transformer.forward tf p) ∧
    Transformer.forward tfC pC ≠ Transformer.backward tfC pC := by
  refine ⟨fun tf p => ⟨rfl, rfl⟩, ?_⟩
  intro h
  rw [forward_tfC, backward_tfC] at h
  injection h with h'
  have h3 := congrArg Point.altitude h'
  norm_num at h3

/-- Counterexample to C2 as stated: at a concrete cell, corner
parameters and iterate, the Newton update the code computes differs from
the update prescribed by the claim's Jacobian — the analytic corner
differences weighted by the cell-local coordinates of the iterate — so
the code's Jacobian entries are not those of the claim (the code weights
by the raw degree coordinates `yn`, `xn` instead,
src/unnamed/part_005 lines 921-938). -/
theorem backwardStep_ne_claimNewtonStep :
    Transformer.backwardStep cellC prmZero prmZero prmZero prmNeC2 pC
        (140 + 1/160) (36 + 1/240) ≠
      claimNewtonStep cellC prmZero prmZero prmZero prmNeC2 pC
        (140 + 1/160) (36 + 1/240) := by
  intro h
  have h1 := congrArg Prod.fst h
  unfold Transformer.backwardStep claimNewtonStep cramerUpdate jacDet
    localWeightedJacobian newtonResidual at h1
  dsimp only at h1
  rw [show (⟨36 + 1/240, 140 + 1/160, 0⟩ : Point) = pC from rfl] at h1
  rw [position_pC] at h1
  unfold bilinearInterpolation prmZero prmNeC2 pC at h1
  norm_num at h1

/-- Witness for the C2 amended theorem at a concrete input with nonzero
determinant. -/
theorem backwardStep_cramer_witness :
    Transformer.backwardStep cellC prmZero prmZero prmZero prmNeC2 pC
        (140 + 1/160) (36 + 1/240) =
      cramerUpdate
        (degreeWeightedJacobian prmZero prmZero prmZero prmNeC2
          (140 + 1/160) (36 + 1/240))
        (newtonResidual cellC prmZero prmZero prmZero prmNeC2 pC
          (140 + 1/160) (36 + 1/240))
        (140 + 1/160) (36 + 1/240) ∧
    jacApply
        (degreeWeightedJacobian prmZero prmZero prmZero prmNeC2
          (140 + 1/160) (36 + 1/240))
        ((140 + 1/160) -
          (Transformer.backwardStep cellC prmZero prmZero prmZero prmNeC2 pC
            (140 + 1/160) (36 + 1/240)).1,
         (36 + 1/240) -
          (Transformer.backwardStep cellC prmZero prmZero prmZero prmNeC2 pC
            (140 + 1/160) (36 + 1/240)).2) =
      newtonResidual cellC prmZero prmZero prmZero prmNeC2 pC
        (140 + 1/160) (36 + 1/240) :=
  ⟨(backwardStep_cramer cellC prmZero prmZero prmZero prmNeC2 pC
      (140 + 1/160) (36 + 1/240)).1,
   (backwardStep_cramer cellC prmZero prmZero prmZero prmNeC2 pC
      (140 + 1/160) (36 + 1/240)).2
     (by unfold jacDet degreeWeightedJacobian prmZero prmNeC2; norm_num)⟩

/-- The Newton loop with the cell and corner parameters hoisted out of
the loop: resolved once from the original target point (specification
side, for comparison with `backwardGo`, which re-resolves them every
iteration from that same original point). -/
def Transformer.backwardGoHoisted (tf : Transformer) (point : Point)
    (cell : MeshCell) (sw se nw nE : Parameter) :
    Nat → ℚ → ℚ → Except JgdError Correction
  | 0, _, _ => .error .correctionNotFound
  | n + 1, xn, yn =>
    let next := Transformer.backwardStep cell sw se nw nE point xn yn
    match tf.forwardCorrection ⟨next.2, next.1, 0⟩ with
    | .error e => .error e
    | .ok corr =>
      let delta_x := point.longitude - (next.1 + corr.longitude)
      let delta_y := point.latitude - (next.2 + corr.latitude)
      if |delta_x| < ERROR_MAX ∧ |delta_y| < ERROR_MAX then
        .ok ⟨-corr.latitude, -corr.longitude, -corr.altitude⟩
      else Transformer.backwardGoHoisted tf point cell sw se nw nE n next.1 next.2

/-- `backwardCorrection` with the cell and parameter lookups hoisted
before the loop. -/
def Transformer.backwardCorrectionHoisted (tf : Transformer) (point : Point) :
    Except JgdError Correction :=
  match cellAtPoint point (meshUnit tf.format) with
  | .error e => .error e
  | .ok cell =>
    match tf.parameterQuadruple cell with
    | .error e => .error e
    | .ok (sw, se, nw, nE) =>
      Transformer.backwardGoHoisted tf point cell sw se nw nE 4
        point.longitude point.latitude

/-- When the cell and parameters resolve, the per-iteration resolution in
`backwardGo` is loop-invariant: the loop equals its hoisted form. -/
theorem backwardGo_eq_hoisted (tf : Transformer) (point : Point)
    (cell : MeshCell) (sw se nw nE : Parameter)
    (hc : cellAtPoint point (meshUnit tf.format) = .ok cell)
    (hq : tf.parameterQuadruple cell = .ok (sw, se, nw, nE)) :
    ∀ (n : Nat) (xn yn : ℚ),
      Transformer.backwardGo tf point n xn yn =
        Transformer.backwardGoHoisted tf point cell sw se nw nE n xn yn := by
  intro n
  induction n with
  | zero => intro xn yn; rfl
  | succ n ih =>
    intro xn yn
    unfold Transformer.backwardGo Transformer.backwardGoHoisted
    rw [hc]
    dsimp only
    rw [hq]
    dsimp only
    cases tf.forwardCorrection
        ⟨(Transformer.backwardStep cell sw se nw nE point xn yn).2,
         (Transformer.backwardStep cell sw se nw nE point xn yn).1, 0⟩ with
    | error e => rfl
    | ok corr =>
      dsimp only
      split_ifs with h
      · rfl
      · exact ih _ _

/-- One `backwardGo` iteration whose cell resolution fails. -/
theorem backwardGo_cell_error (tf : Transformer) (point : Point) (n : Nat)
    (xn yn : ℚ) (e : JgdError)
    (hc : cellAtPoint point (meshUnit tf.format) = .error e) :
    Transformer.backwardGo tf point (n + 1) xn yn = .error e := by
  unfold Transformer.backwardGo
  rw [hc]

/-- One `backwardGo` iteration whose corner lookup fails. -/
theorem backwardGo_quad_error (tf : Transformer) (point : Point) (n : Nat)
    (xn yn : ℚ) (cell : MeshCell) (e : JgdError)
    (hc : cellAtPoint point (meshUnit tf.format) = .ok cell)
    (hq : tf.parameterQuadruple cell = .error e) :
    Transformer.backwardGo tf point (n + 1) xn yn = .error e := by
  unfold Transformer.backwardGo
  rw [hc]
  dsimp only
  rw [hq]

/-- `backwardCorrection` equals its hoisted form: the cell and the
corner parameters are resolved from the original target point only. -/
theorem backwardCorrection_eq_hoisted (tf : Transformer) (point : Point) :
    tf.backwardCorrection point = Transformer.backwardCorrectionHoisted tf point := by
  unfold Transformer.backwardCorrection Transformer.backwardCorrectionHoisted
  rw [show (4 : Nat) = 3 + 1 from rfl]
  cases hc : cellAtPoint point (meshUnit tf.format) with
  | error e =>
    dsimp only
    exact backwardGo_cell_error tf point 3 _ _ e hc
  | ok cell =>
    dsimp only
    cases hq : tf.parameterQuadruple cell with
    | error e =>
      dsimp only
      exact backwardGo_quad_error tf point 3 _ _ cell e hc hq
    | ok q =>
      obtain ⟨sw, se, nw, nE⟩ := q
      dsimp only
      exact backwardGo_eq_hoisted tf point cell sw se nw nE hc hq (3 + 1) _ _

/-- The list of iterates the Newton loop produces. -/
def Transformer.backwardIterates (tf : Transformer) (point : Point) :
    Nat → ℚ → ℚ → List (ℚ × ℚ)
  | 0, _, _ => []
  | n + 1, xn, yn =>
    match cellAtPoint point (meshUnit tf.format) with
    | .error _ => []
    | .ok cell =>
      match tf.parameterQuadruple cell with
      | .error _ => []
      | .ok (sw, se, nw, nE) =>
        let next := Transformer.backwardStep cell sw se nw nE point xn yn
        match tf.forwardCorrection ⟨next.2, next.1, 0⟩ with
        | .error _ => [next]
        | .ok corr =>
          let delta_x := point.longitude - (next.1 + corr.longitude)
          let delta_y := point.latitude - (next.2 + corr.latitude)
          if |delta_x| < ERROR_MAX ∧ |delta_y| < ERROR_MAX then [next]
          else next :: Transformer.backwardIterates tf point n next.1 next.2

/-- The Newton loop performs at most `fuel` iterations. -/
theorem backwardIterates_length (tf : Transformer) (point : Point) :
    ∀ (n : Nat) (xn yn : ℚ),
      (Transformer.backwardIterates tf point n xn yn).length ≤ n := by
  intro n
  induction n with
  | zero =>
    intro xn yn
    simp [Transformer.backwardIterates]
  | succ n ih =>
    intro xn yn
    unfold Transformer.backwardIterates
    split
    · simp
    · split
      · simp
      · dsimp only
        split
        · simp
        · split_ifs
          · simp
          · simp only [List.length_cons]
            exact Nat.succ_le_succ (ih _ _)

/-- `backwardGo` succeeds only through a verified iterate: the returned
correction comes from a `forwardCorrection` evaluation whose residuals
on both axes are below `ERROR_MAX`. -/
theorem backwardGo_ok_converged (tf : Transformer) (point : Point) :
    ∀ (n : Nat) (xn yn : ℚ) (c : Correction),
      Transformer.backwardGo tf point n xn yn = .ok c →
      ∃ (xa ya : ℚ) (corr : Correction),
        tf.forwardCorrection ⟨ya, xa, 0⟩ = .ok corr ∧
        |point.longitude - (xa + corr.longitude)| < ERROR_MAX ∧
        |point.latitude - (ya + corr.latitude)| < ERROR_MAX ∧
        c = ⟨-corr.latitude, -corr.longitude, -corr.altitude⟩ := by
  intro n
  induction n with
  | zero =>
    intro xn yn c h
    exact Except.noConfusion h
  | succ n ih =>
    intro xn yn c h
    unfold Transformer.backwardGo at h
    split at h
    · exact Except.noConfusion h
    · split at h
      · exact Except.noConfusion h
      · dsimp only at h
        split at h
        · exact Except.noConfusion h
        · next corr hcorr =>
          split_ifs at h with hconv
          · refine ⟨_, _, corr, hcorr, hconv.1, hconv.2, ?_⟩
            injection h with h'
            exact h'.symm
          · exact ih _ _ c h

/-- C4: `backwardCorrection` always terminates (it is a total function of
its 4-unit fuel) and executes at most 4 Newton iterations; in every
iteration the mesh cell and corner parameters are resolved from the
original target point, never from the current iterate (the loop equals
its hoisted form); a success passes the verification residual check; and
with the fuel exhausted the loop fails with the correction-not-found
error, a constructor distinct from parameter-not-found
(src/unnamed/part_005 lines 869-961). -/
theorem backward_newton_bounded :
    (∀ (tf : Transformer) (point : Point) (n : Nat) (xn yn : ℚ),
      (Transformer.backwardIterates tf point n xn yn).length ≤ n) ∧
    (∀ (tf : Transformer) (point : Point),
      tf.backwardCorrection point =
        Transformer.backwardCorrectionHoisted tf point) ∧
    (∀ (tf : Transformer) (point : Point) (xn yn : ℚ),
      Transformer.backwardGo tf point 0 xn yn = .error .correctionNotFound) ∧
    (∀ (tf : Transformer) (point : Point) (n : Nat) (xn yn : ℚ) (c : Correction),
      Transformer.backwardGo tf point n xn yn = .ok c →
      ∃ (xa ya : ℚ) (corr : Correction),
        tf.forwardCorrection ⟨ya, xa, 0⟩ = .ok corr ∧
        |point.longitude - (xa + corr.longitude)| < ERROR_MAX ∧
        |point.latitude - (ya + corr.latitude)| < ERROR_MAX ∧
        c = ⟨-corr.latitude, -corr.longitude, -corr.altitude⟩) ∧
    (∀ s : String,
      JgdError.correctionNotFound ≠ JgdError.parameterNotFound s) :=
  ⟨fun tf point n xn yn => backwardIterates_length tf point n xn yn,
   backwardCorrection_eq_hoisted,
   fun _ _ _ _ => rfl,
   fun tf point n xn yn c h => backwardGo_ok_converged tf point n xn yn c h,
   fun _ h => JgdError.noConfusion h⟩

/-- Witness for the C4 theorem: the concrete converged run of
`backwardCorrection tfC pC` passes through a verified iterate. -/
theorem backward_newton_bounded_witness :
    ∃ (xa ya : ℚ) (corr : Correction),
      Transformer.forwardCorrection tfC ⟨ya, xa, 0⟩ = .ok corr ∧
      |pC.longitude - (xa + corr.longitude)| < ERROR_MAX ∧
      |pC.latitude - (ya + corr.latitude)| < ERROR_MAX ∧
      (⟨0, 0, -5⟩ : Correction) =
        ⟨-corr.latitude, -corr.longitude, -corr.altitude⟩ :=
  backward_newton_bounded.2.2.2.1 tfC pC 4 pC.longitude pC.latitude
    ⟨0, 0, -5⟩ backwardCorrection_tfC
